import Mathlib

/-!
Verification of the odoo-multi-environment provisioning scripts.

The definitions below are a shallow embedding of the repository's Python
sources (`install_odoo.py`, `install.py`, `verify_odoo.py`, and the
`lib/environment.py` module embedded as a string in `setup_project.py`).
Shell commands executed via `subprocess.run` are modelled by feeding the
command's observed `CmdResult` (exit status, captured stdout, captured
stderr) into the embedded `run_command` logic; the sequence of commands a
provisioning run issues is modelled as a list of `Act`s.
-/

/-- Outcome of one executed shell command: exit status and the separately
captured standard output and standard error, as produced by
`subprocess.run(..., capture_output=True, text=True)`. -/
structure CmdResult where
  exitCode : Nat
  stdout : String
  stderr : String
deriving DecidableEq

/-- Python exceptions that the scripts can raise while running commands.
`calledProcessError cmd code stderr` models `subprocess.CalledProcessError`
raised by `subprocess.run(..., check=True)` on a non-zero exit status; the
exception object carries the command, the return code and the captured
stderr. -/
inductive PyError where
  | calledProcessError (cmd : String) (code : Nat) (stderr : String)
deriving DecidableEq

/-- Python `str.strip()`: drop leading and trailing whitespace
(structurally recursive so that it evaluates inside the kernel). -/
def dropLeadingWs : List Char → List Char
  | [] => []
  | c :: cs => if c.isWhitespace then dropLeadingWs cs else c :: cs

/-- Python `str.strip()` on a string value. -/
def pyStrip (s : String) : String :=
  String.mk (dropLeadingWs (dropLeadingWs s.data.reverse).reverse)

/-- `run_command` of `install_odoo.py` (lines 55-69): runs the command with
`shell=True, check=check, capture_output=True`.  With `check=True` a
non-zero exit raises `CalledProcessError` (the function logs it and
re-raises); with `check=False` `subprocess.run` does not raise and the
function returns `result.stdout.strip()` (stderr is only logged). -/
def run_command_odoo (cmd : String) (res : CmdResult) (check : Bool) :
    Except PyError String :=
  if check = true ∧ res.exitCode ≠ 0 then
    .error (.calledProcessError cmd res.exitCode res.stderr)
  else
    .ok (pyStrip res.stdout)

/-- The text of `str(e)` for a `subprocess.CalledProcessError e`: it names
the command and the status, and does not contain the captured stderr. -/
def calledProcessErrorText (cmd : String) (code : Nat) : String :=
  "Command " ++ "\x27" ++ cmd ++ "\x27 returned non-zero exit status " ++
    toString code ++ "."

/-- `run_command` of `install.py` (lines 45-89): prefixes `sudo ` when
`sudo=True`, runs with `check=check` and piped stdout/stderr, and returns a
`(success, output)` pair.  On exit status 0 it returns `(True, stdout)`;
on a non-zero status with `check=False` it returns `(False, stderr)`; with
`check=True` the `CalledProcessError` raised by `subprocess.run` is caught
and `(False, str(e))` is returned — the function never raises.
The source's parameter `sudo` is spelled `sudoFlag` (`sudo` is reserved
in Lean). -/
def run_command_install (command : String) (res : CmdResult)
    (check : Bool) (sudoFlag : Bool) : Bool × String :=
  let cmd := if sudoFlag then "sudo " ++ command else command
  if check = true ∧ res.exitCode ≠ 0 then
    (false, calledProcessErrorText cmd res.exitCode)
  else if res.exitCode = 0 then
    (true, res.stdout)
  else
    (false, res.stderr)

/-- One entry of the `ENVIRONMENTS` table of `install_odoo.py`
(lines 28-53).  The source key `prefix` is spelled `pfx` here. -/
structure EnvConfig where
  pfx : String
  port : Nat
  domain : String
  memory_limit : String
deriving DecidableEq

/-- The `ENVIRONMENTS` table of `install_odoo.py` (lines 28-53). -/
def ENVIRONMENTS : List (String × EnvConfig) :=
  [ ("production", ⟨"prod_", 8069, "production.example.com", "4G"⟩),
    ("uat", ⟨"uat_", 8070, "uat.example.com", "2G"⟩),
    ("testing", ⟨"test_", 8071, "testing.example.com", "2G"⟩),
    ("training", ⟨"train_", 8072, "training.example.com", "2G"⟩) ]

/-- `ENVIRONMENTS[env_name]`: dictionary lookup by environment name. -/
def lookupEnv (env_name : String) : Option EnvConfig :=
  (ENVIRONMENTS.find? (fun p => p.1 = env_name)).map Prod.snd

/-- `odoo_user = f"{prefix}odoo"` (install_odoo.py line 97). -/
def odoo_user (p : String) : String := p ++ "odoo"

/-- `odoo_home = f"/opt/{prefix}odoo"` (line 98). -/
def odoo_home (p : String) : String := "/opt/" ++ p ++ "odoo"

/-- `odoo_log_dir = f"/var/log/{prefix}odoo"` (line 109). -/
def odoo_log_dir (p : String) : String := "/var/log/" ++ p ++ "odoo"

/-- `odoo_config_dir = f"/etc/{prefix}odoo"` (line 110). -/
def odoo_config_dir (p : String) : String := "/etc/" ++ p ++ "odoo"

/-- `odoo_addons_dir = f"{odoo_home}/addons"` (line 111). -/
def odoo_addons_dir (p : String) : String := odoo_home p ++ "/addons"

/-- `config_file = f"{odoo_config_dir}/odoo.conf"` (line 152). -/
def config_file (p : String) : String := odoo_config_dir p ++ "/odoo.conf"

/-- `service_file = f"/etc/systemd/system/{prefix}odoo.service"` (line 187). -/
def service_file (p : String) : String :=
  "/etc/systemd/system/" ++ p ++ "odoo.service"

/-- `nginx_conf = f"/etc/nginx/sites-available/{prefix}odoo"` (line 221). -/
def nginx_conf (p : String) : String :=
  "/etc/nginx/sites-available/" ++ p ++ "odoo"

/-- `db_name = f"{prefix}odoo"` (line 132). -/
def db_name (p : String) : String := p ++ "odoo"

/-- `db_user = f"{prefix}odoo"` (line 130). -/
def db_user (p : String) : String := p ++ "odoo"

/-- `db_password = f"odoo_{env_name}_pass"` (line 131). -/
def db_password (env_name : String) : String := "odoo_" ++ env_name ++ "_pass"

/-- `venv_dir = f"{odoo_home}/venv"` (line 122). -/
def venv_dir (p : String) : String := odoo_home p ++ "/venv"

/-- The derived longpolling port: `port + 1000` (config line 167 and the
nginx chat upstream, line 228). -/
def longpolling_port (port : Nat) : Nat := port + 1000

/-- `module_dir = f"{odoo_addons_dir}/crm_contacto_comercial"` (line 285). -/
def module_dir (p : String) : String :=
  odoo_addons_dir p ++ "/crm_contacto_comercial"

/-- Python `str.capitalize()`: first character uppercased, the rest
lowercased (used for the service `Description=` and the summary lines). -/
def pyCapitalize (s : String) : String :=
  match s.data with
  | [] => ""
  | c :: cs => String.mk (c.toUpper :: cs.map Char.toLower)

/-- The rendered `odoo.conf` text (`config_content`, install_odoo.py
lines 154-174). -/
def config_content (env_name : String) (cfg : EnvConfig) : String :=
  "[options]\n" ++
  "; This is the password that allows database operations:\n" ++
  "admin_passwd = admin_secure_password\n" ++
  "db_host = localhost\n" ++
  "db_port = 5432\n" ++
  "db_user = " ++ db_user cfg.pfx ++ "\n" ++
  "db_password = " ++ db_password env_name ++ "\n" ++
  "dbfilter = " ++ db_name cfg.pfx ++ "\n" ++
  "addons_path = " ++ odoo_home cfg.pfx ++ "/odoo/addons," ++
    odoo_addons_dir cfg.pfx ++ "\n" ++
  "logfile = " ++ odoo_log_dir cfg.pfx ++ "/odoo-server.log\n" ++
  "log_level = info\n" ++
  "proxy_mode = True\n" ++
  "http_port = " ++ toString cfg.port ++ "\n" ++
  "longpolling_port = " ++ toString (longpolling_port cfg.port) ++ "\n" ++
  "workers = 2\n" ++
  "limit_memory_hard = 2684354560\n" ++
  "limit_memory_soft = 2147483648\n" ++
  "limit_time_cpu = 600\n" ++
  "limit_time_real = 1200\n" ++
  "max_cron_threads = 1\n"

/-- The rendered systemd unit text (`service_content`, lines 189-207). -/
def service_content (env_name : String) (cfg : EnvConfig) : String :=
  "[Unit]\n" ++
  "Description=Odoo " ++ pyCapitalize env_name ++ " Server\n" ++
  "Requires=postgresql.service\n" ++
  "After=network.target postgresql.service\n" ++
  "\n" ++
  "[Service]\n" ++
  "Type=simple\n" ++
  "SyslogIdentifier=" ++ cfg.pfx ++ "odoo\n" ++
  "PermissionsStartOnly=true\n" ++
  "User=" ++ odoo_user cfg.pfx ++ "\n" ++
  "Group=" ++ odoo_user cfg.pfx ++ "\n" ++
  "ExecStart=" ++ venv_dir cfg.pfx ++ "/bin/python3 " ++ odoo_home cfg.pfx ++
    "/odoo/odoo-bin -c " ++ config_file cfg.pfx ++ "\n" ++
  "StandardOutput=journal+console\n" ++
  "RestartSec=5\n" ++
  "Restart=always\n" ++
  "\n" ++
  "[Install]\n" ++
  "WantedBy=multi-user.target\n"

/-- The rendered nginx vhost text (`nginx_content`, lines 223-268). -/
def nginx_content (cfg : EnvConfig) : String :=
  "upstream " ++ cfg.pfx ++ "odoo \x7b\n" ++
  "    server 127.0.0.1:" ++ toString cfg.port ++ ";\n" ++
  "\x7d\n" ++
  "\n" ++
  "upstream " ++ cfg.pfx ++ "odoo-chat \x7b\n" ++
  "    server 127.0.0.1:" ++ toString (longpolling_port cfg.port) ++ ";\n" ++
  "\x7d\n" ++
  "\n" ++
  "server \x7b\n" ++
  "    listen 80;\n" ++
  "    server_name " ++ cfg.domain ++ ";\n" ++
  "\n" ++
  "    # Add Headers for odoo proxy mode\n" ++
  "    proxy_set_header X-Forwarded-Host $host;\n" ++
  "    proxy_set_header X-Forwarded-For $proxy_add_x_forwarded_for;\n" ++
  "    proxy_set_header X-Forwarded-Proto $scheme;\n" ++
  "    proxy_set_header X-Real-IP $remote_addr;\n" ++
  "\n" ++
  "    # Log\n" ++
  "    access_log /var/log/nginx/" ++ cfg.pfx ++ "odoo-access.log;\n" ++
  "    error_log /var/log/nginx/" ++ cfg.pfx ++ "odoo-error.log;\n" ++
  "\n" ++
  "    # Redirect longpoll requests to odoo longpolling port\n" ++
  "    location /longpolling \x7b\n" ++
  "        proxy_pass http://" ++ cfg.pfx ++ "odoo-chat;\n" ++
  "    \x7d\n" ++
  "\n" ++
  "    # Redirect requests to odoo backend server\n" ++
  "    location / \x7b\n" ++
  "        proxy_redirect off;\n" ++
  "        proxy_pass http://" ++ cfg.pfx ++ "odoo;\n" ++
  "    \x7d\n" ++
  "\n" ++
  "    # Cache static files\n" ++
  "    location ~* /web/static/ \x7b\n" ++
  "        proxy_cache_valid 200 90m;\n" ++
  "        proxy_buffering on;\n" ++
  "        expires 864000;\n" ++
  "        proxy_pass http://" ++ cfg.pfx ++ "odoo;\n" ++
  "    \x7d\n" ++
  "\n" ++
  "    # Gzip\n" ++
  "    gzip_types text/css text/less text/plain text/xml application/xml application/json application/javascript;\n" ++
  "    gzip on;\n" ++
  "\x7d\n"

/-- Content written to `__init__.py` of the CRM module (lines 291-292). -/
def module_init_content : String := "from . import models\n"

/-- Content written to `__manifest__.py` of the CRM module
(lines 297-313). -/
def module_manifest_content : String :=
  "\x7b\n" ++
  "    \x27name\x27: \x27CRM Contacto Comercial\x27,\n" ++
  "    \x27version\x27: \x271.0\x27,\n" ++
  "    \x27summary\x27: \x27Gestión avanzada de leads\x27,\n" ++
  "    \x27description\x27: \x27Módulo personalizado para la gestión avanzada de leads y contactos comerciales\x27,\n" ++
  "    \x27category\x27: \x27CRM\x27,\n" ++
  "    \x27author\x27: \x27Tu Empresa\x27,\n" ++
  "    \x27website\x27: \x27https://www.tuempresa.com\x27,\n" ++
  "    \x27depends\x27: [\x27crm\x27, \x27mail\x27],\n" ++
  "    \x27data\x27: [\n" ++
  "        \x27views/crm_lead_views.xml\x27,\n" ++
  "    ],\n" ++
  "    \x27installable\x27: True,\n" ++
  "    \x27application\x27: False,\n" ++
  "    \x27auto_install\x27: False,\n" ++
  "\x7d\n"

/-- Content written to `models/__init__.py` of the CRM module
(lines 320-321). -/
def module_models_init_content : String := "from . import crm_lead\n"

/-- Content written to `models/crm_lead.py` of the CRM module
(lines 326-353). -/
def module_crm_lead_content : String :=
  "from odoo import api, fields, models\n" ++
  "\n" ++
  "class CrmLead(models.Model):\n" ++
  "    _inherit = \x27crm.lead\x27\n" ++
  "    \n" ++
  "    # Campos adicionales para gestión avanzada\n" ++
  "    sector_id = fields.Many2one(\x27res.partner.industry\x27, string=\x27Sector\x27)\n" ++
  "    potential_revenue = fields.Monetary(string=\x27Ingresos Potenciales\x27, currency_field=\x27company_currency\x27)\n" ++
  "    decision_maker = fields.Char(string=\x27Tomador de Decisión\x27)\n" ++
  "    decision_maker_position = fields.Char(string=\x27Cargo del Tomador de Decisión\x27)\n" ++
  "    decision_maker_email = fields.Char(string=\x27Email del Tomador de Decisión\x27)\n" ++
  "    decision_maker_phone = fields.Char(string=\x27Teléfono del Tomador de Decisión\x27)\n" ++
  "    \n" ++
  "    # Campos para seguimiento de interacciones\n" ++
  "    last_interaction_date = fields.Date(string=\x27Fecha de Última Interacción\x27)\n" ++
  "    last_interaction_type = fields.Selection([\n" ++
  "        (\x27call\x27, \x27Llamada\x27),\n" ++
  "        (\x27meeting\x27, \x27Reunión\x27),\n" ++
  "        (\x27email\x27, \x27Email\x27),\n" ++
  "        (\x27other\x27, \x27Otro\x27)\n" ++
  "    ], string=\x27Tipo de Última Interacción\x27)\n" ++
  "    \n" ++
  "    # Campos para análisis de oportunidad\n" ++
  "    competitor_ids = fields.Many2many(\x27res.partner\x27, string=\x27Competidores\x27)\n" ++
  "    winning_factor = fields.Text(string=\x27Factores para Ganar\x27)\n" ++
  "    risk_factor = fields.Text(string=\x27Factores de Riesgo\x27)\n"

/-- Content written to `views/crm_lead_views.xml` of the CRM module
(lines 361-397). -/
def module_views_content : String :=
  "<?xml version=\"1.0\" encoding=\"utf-8\"?>\n" ++
  "<odoo>\n" ++
  "    <!-- Extiende la vista de formulario de oportunidades -->\n" ++
  "    <record id=\"crm_case_form_view_oppor_extended\" model=\"ir.ui.view\">\n" ++
  "        <field name=\"name\">crm.lead.form.opportunity.extended</field>\n" ++
  "        <field name=\"model\">crm.lead</field>\n" ++
  "        <field name=\"inherit_id\" ref=\"crm.crm_case_form_view_oppor\"/>\n" ++
  "        <field name=\"arch\" type=\"xml\">\n" ++
  "            <xpath expr=\"//notebook\" position=\"inside\">\n" ++
  "                <page string=\"Información Comercial Avanzada\">\n" ++
  "                    <group>\n" ++
  "                        <group string=\"Información de Contacto Principal\">\n" ++
  "                            <field name=\"decision_maker\"/>\n" ++
  "                            <field name=\"decision_maker_position\"/>\n" ++
  "                            <field name=\"decision_maker_email\" widget=\"email\"/>\n" ++
  "                            <field name=\"decision_maker_phone\" widget=\"phone\"/>\n" ++
  "                        </group>\n" ++
  "                        <group string=\"Detalles de Negocio\">\n" ++
  "                            <field name=\"sector_id\"/>\n" ++
  "                            <field name=\"potential_revenue\"/>\n" ++
  "                            <field name=\"competitor_ids\" widget=\"many2many_tags\"/>\n" ++
  "                        </group>\n" ++
  "                    </group>\n" ++
  "                    <group string=\"Análisis de Oportunidad\">\n" ++
  "                        <field name=\"winning_factor\" placeholder=\"Factores que nos ayudarán a ganar esta oportunidad...\"/>\n" ++
  "                        <field name=\"risk_factor\" placeholder=\"Posibles riesgos u obstáculos...\"/>\n" ++
  "                    </group>\n" ++
  "                    <group string=\"Seguimiento de Interacciones\">\n" ++
  "                        <field name=\"last_interaction_date\"/>\n" ++
  "                        <field name=\"last_interaction_type\"/>\n" ++
  "                    </group>\n" ++
  "                </page>\n" ++
  "            </xpath>\n" ++
  "        </field>\n" ++
  "    </record>\n" ++
  "</odoo>\n"

/-- One observable side-effecting step of `setup_environment` in
`install_odoo.py`: a shell command dispatched through `run_command`, or a
direct Python file write (`open(path, "w").write(content)`). -/
inductive Act where
  | run (cmd : String)
  | pyWrite (path : String) (content : String)
deriving DecidableEq

/-- The host-state facts that `setup_environment` probes before each
guarded creation: existence of the system user, the Odoo clone, the
virtualenv, the PostgreSQL role, the database, the config file, the
service unit, the nginx vhost and the module directory, plus whether the
service reports active at the end. -/
structure SysState where
  userExists : Bool
  odooCloned : Bool
  venvExists : Bool
  pgUserExists : Bool
  dbExists : Bool
  configExists : Bool
  serviceExists : Bool
  nginxExists : Bool
  moduleExists : Bool
  serviceActive : Bool
deriving DecidableEq

/-- The test `run_command(cmd, check=False) == "no"` used by every guard in
`setup_environment`: with `check=False` the call cannot raise, so the
error branch is unreachable. -/
def lenientSaysNo (cmd : String) (res : CmdResult) : Bool :=
  match run_command_odoo cmd res false with
  | .ok out => out = "no"
  | .error _ => false

/-- Captured result of a guard command of the shape `<probe> || echo 'no'`:
the compound always exits 0 (`echo` succeeds); stdout is `no` plus a
newline when the probe failed (resource absent) and empty when the probe
succeeded (resource present, its own output discarded or consumed by
`grep -q`). -/
def guardReply (present : Bool) : CmdResult :=
  ⟨0, if present then "" else "no\n", ""⟩

/-- The user-existence guard command (line 101). -/
def userCheckCmd (p : String) : String :=
  "id -u " ++ odoo_user p ++ " > /dev/null 2>&1 || echo \x27no\x27"

/-- The `useradd` creation command (line 103). -/
def useraddCmd (p : String) : String :=
  "sudo useradd -m -d " ++ odoo_home p ++ " -U -r -s /bin/bash " ++
    odoo_user p

/-- Step 1 of `setup_environment` (lines 96-106): run the user guard
lenient, create the user only when the guard printed `no`. -/
def step_user (cfg : EnvConfig) (s : SysState) : List Act :=
  Act.run (userCheckCmd cfg.pfx) ::
  (if lenientSaysNo (userCheckCmd cfg.pfx) (guardReply s.userExists)
   then [Act.run (useraddCmd cfg.pfx)] else [])

/-- Step 2 (lines 108-114): `mkdir -p` for the log, config and addons
directories, unconditionally. -/
def step_dirs (cfg : EnvConfig) : List Act :=
  [ Act.run ("sudo mkdir -p " ++ odoo_log_dir cfg.pfx),
    Act.run ("sudo mkdir -p " ++ odoo_config_dir cfg.pfx),
    Act.run ("sudo mkdir -p " ++ odoo_addons_dir cfg.pfx) ]

/-- Step 3 (lines 116-119): clone Odoo 16.0 unless
`os.path.exists(f"{odoo_home}/odoo")`. -/
def step_clone (cfg : EnvConfig) (s : SysState) : List Act :=
  if s.odooCloned then [] else
  [ Act.run ("sudo git clone -b 16.0 --depth 1 https://github.com/odoo/odoo.git "
      ++ odoo_home cfg.pfx ++ "/odoo") ]

/-- Step 4 (lines 121-127): create the virtualenv and install
requirements unless `os.path.exists(venv_dir)`. -/
def step_venv (cfg : EnvConfig) (s : SysState) : List Act :=
  if s.venvExists then [] else
  [ Act.run ("sudo python3 -m venv " ++ venv_dir cfg.pfx),
    Act.run ("sudo " ++ venv_dir cfg.pfx ++ "/bin/pip install --upgrade pip"),
    Act.run ("sudo " ++ venv_dir cfg.pfx ++ "/bin/pip install -r " ++
      odoo_home cfg.pfx ++ "/odoo/requirements.txt"),
    Act.run ("sudo " ++ venv_dir cfg.pfx ++ "/bin/pip install psycopg2-binary") ]

/-- The PostgreSQL-role guard command (line 135). -/
def pgUserCheckCmd (p : String) : String :=
  "sudo -u postgres psql -tAc \"SELECT 1 FROM pg_roles WHERE rolname=\x27" ++
    db_user p ++ "\x27\" | grep -q 1 || echo \x27no\x27"

/-- The database guard command (line 144). -/
def dbCheckCmd (p : String) : String :=
  "sudo -u postgres psql -lqt | cut -d \\| -f 1 | grep -qw " ++ db_name p ++
    " || echo \x27no\x27"

/-- Step 5 (lines 129-149): guarded creation of the PostgreSQL role
(plus password) and of the database. -/
def step_postgres (env_name : String) (cfg : EnvConfig) (s : SysState) :
    List Act :=
  (Act.run (pgUserCheckCmd cfg.pfx) ::
    (if lenientSaysNo (pgUserCheckCmd cfg.pfx) (guardReply s.pgUserExists)
     then
       [ Act.run ("sudo -u postgres createuser -s " ++ db_user cfg.pfx),
         Act.run ("sudo -u postgres psql -c \"ALTER USER " ++ db_user cfg.pfx
           ++ " WITH PASSWORD \x27" ++ db_password env_name ++ "\x27\"") ]
     else [])) ++
  (Act.run (dbCheckCmd cfg.pfx) ::
    (if lenientSaysNo (dbCheckCmd cfg.pfx) (guardReply s.dbExists)
     then [ Act.run ("sudo -u postgres createdb --owner=" ++ db_user cfg.pfx
              ++ " " ++ db_name cfg.pfx) ]
     else []))

/-- The four actions of the config-file write (lines 176-181): write the
complete rendered text to `temp_config.conf` in the current working
directory, move it into place, then `chown`, then `chmod 640`. -/
def config_write_block (env_name : String) (cfg : EnvConfig) : List Act :=
  [ Act.pyWrite "temp_config.conf" (config_content env_name cfg),
    Act.run ("sudo mv temp_config.conf " ++ config_file cfg.pfx),
    Act.run ("sudo chown " ++ odoo_user cfg.pfx ++ ":" ++ odoo_user cfg.pfx
      ++ " " ++ config_file cfg.pfx),
    Act.run ("sudo chmod 640 " ++ config_file cfg.pfx) ]

/-- Step 6 (lines 151-184): the config write, skipped entirely when
`os.path.exists(config_file)`. -/
def step_config (env_name : String) (cfg : EnvConfig) (s : SysState) :
    List Act :=
  if s.configExists then [] else config_write_block env_name cfg

/-- The five actions of the service-unit write (lines 209-215): write the
full text to `temp_service.service` in the current working directory,
move it into place, `chmod 644` (no chown), `daemon-reload`, `enable`. -/
def service_write_block (env_name : String) (cfg : EnvConfig) : List Act :=
  [ Act.pyWrite "temp_service.service" (service_content env_name cfg),
    Act.run ("sudo mv temp_service.service " ++ service_file cfg.pfx),
    Act.run ("sudo chmod 644 " ++ service_file cfg.pfx),
    Act.run "sudo systemctl daemon-reload",
    Act.run ("sudo systemctl enable " ++ cfg.pfx ++ "odoo.service") ]

/-- Step 7 (lines 186-218): the service-unit write, skipped when
`os.path.exists(service_file)`. -/
def step_service (env_name : String) (cfg : EnvConfig) (s : SysState) :
    List Act :=
  if s.serviceExists then [] else service_write_block env_name cfg

/-- The three actions of the nginx vhost write (lines 270-274): write the
full text to `temp_nginx.conf` in the current working directory, move it
into place, symlink into `sites-enabled` — no chown and no chmod. -/
def nginx_write_block (cfg : EnvConfig) : List Act :=
  [ Act.pyWrite "temp_nginx.conf" (nginx_content cfg),
    Act.run ("sudo mv temp_nginx.conf " ++ nginx_conf cfg.pfx),
    Act.run ("sudo ln -sf " ++ nginx_conf cfg.pfx ++ " /etc/nginx/sites-enabled/") ]

/-- Step 8 (lines 220-277): the vhost write, skipped when
`os.path.exists(nginx_conf)`. -/
def step_nginx (cfg : EnvConfig) (s : SysState) : List Act :=
  if s.nginxExists then [] else nginx_write_block cfg

/-- Step 9 (lines 279-281): recursive chown of the home and log
directories, unconditionally. -/
def step_perms (cfg : EnvConfig) : List Act :=
  [ Act.run ("sudo chown -R " ++ odoo_user cfg.pfx ++ ":" ++
      odoo_user cfg.pfx ++ " " ++ odoo_home cfg.pfx),
    Act.run ("sudo chown -R " ++ odoo_user cfg.pfx ++ ":" ++
      odoo_user cfg.pfx ++ " " ++ odoo_log_dir cfg.pfx) ]

/-- Step 10 (lines 283-404): create the custom CRM module files, skipped
when `os.path.exists(module_dir)`. -/
def step_module (cfg : EnvConfig) (s : SysState) : List Act :=
  if s.moduleExists then [] else
  [ Act.run ("sudo mkdir -p " ++ module_dir cfg.pfx),
    Act.pyWrite "temp_init.py" module_init_content,
    Act.run ("sudo mv temp_init.py " ++ module_dir cfg.pfx ++ "/__init__.py"),
    Act.pyWrite "temp_manifest.py" module_manifest_content,
    Act.run ("sudo mv temp_manifest.py " ++ module_dir cfg.pfx ++ "/__manifest__.py"),
    Act.run ("sudo mkdir -p " ++ module_dir cfg.pfx ++ "/models"),
    Act.pyWrite "temp_models_init.py" module_models_init_content,
    Act.run ("sudo mv temp_models_init.py " ++ module_dir cfg.pfx ++ "/models/__init__.py"),
    Act.pyWrite "temp_crm_lead.py" module_crm_lead_content,
    Act.run ("sudo mv temp_crm_lead.py " ++ module_dir cfg.pfx ++ "/models/crm_lead.py"),
    Act.run ("sudo mkdir -p " ++ module_dir cfg.pfx ++ "/views"),
    Act.pyWrite "temp_crm_lead_views.xml" module_views_content,
    Act.run ("sudo mv temp_crm_lead_views.xml " ++ module_dir cfg.pfx ++ "/views/crm_lead_views.xml"),
    Act.run ("sudo chown -R " ++ odoo_user cfg.pfx ++ ":" ++
      odoo_user cfg.pfx ++ " " ++ module_dir cfg.pfx) ]

/-- Step 11 (line 407): start the service, unconditionally. -/
def step_start (cfg : EnvConfig) : List Act :=
  [ Act.run ("sudo systemctl start " ++ cfg.pfx ++ "odoo.service") ]

/-- Step 12 (lines 409-414): run `systemctl is-active` lenient; the
result only chooses a log line. -/
def step_status (cfg : EnvConfig) : List Act :=
  [ Act.run ("sudo systemctl is-active " ++ cfg.pfx ++ "odoo.service") ]

/-- The full ordered action trace of `setup_environment` in
`install_odoo.py` (lines 87-416) for one environment, given the
configuration entry and the probed host state. -/
def setup_env_actions (env_name : String) (cfg : EnvConfig) (s : SysState) :
    List Act :=
  step_user cfg s ++ step_dirs cfg ++ step_clone cfg s ++ step_venv cfg s ++
  step_postgres env_name cfg s ++ step_config env_name cfg s ++
  step_service env_name cfg s ++ step_nginx cfg s ++ step_perms cfg ++
  step_module cfg s ++ step_start cfg ++ step_status cfg

/-- `setup_environment(env_name)` of `install_odoo.py`: indexing an
unknown key in `ENVIRONMENTS` would raise `KeyError` (modelled as
`none`); otherwise the run produces the trace `setup_env_actions`. -/
def setup_environment (env_name : String) (s : SysState) :
    Option (List Act) :=
  (lookupEnv env_name).map (fun cfg => setup_env_actions env_name cfg s)

/-- Facts about the live host that the probes of `verify_odoo.py` observe
for one environment. -/
structure HostState where
  serviceActive : Bool
  portBound : Bool
  userPresent : Bool
  dbPresent : Bool
  configFilePresent : Bool
  nginxLinkPresent : Bool
deriving DecidableEq

/-- `run_command` of `verify_odoo.py` (lines 13-23) as used by the
probes: every probe passes `check=False`, and `subprocess.run` with
`check=False` never raises `CalledProcessError`, so the call always
returns `result.stdout.strip()`. -/
def verify_run_command (res : CmdResult) : String := pyStrip res.stdout

/-- Captured output of `systemctl is-active <svc> || echo 'inactive'`
(line 27): `active` with exit 0 when the service runs; otherwise
`systemctl` prints its own state and `echo` appends `inactive`. -/
def isActiveReply (active : Bool) : CmdResult :=
  if active then ⟨0, "active\n", ""⟩ else ⟨0, "inactive\ninactive\n", ""⟩

/-- `check_service` (lines 25-28): the stripped output must equal
`active`. -/
def check_service (active : Bool) : Bool :=
  verify_run_command (isActiveReply active) == "active"

/-- Captured output of `ss -tulpn | grep ':{port}' || echo 'no'`
(line 32): a socket line when the port is bound, else `no`. -/
def portReply (bound : Bool) (port : Nat) : CmdResult :=
  if bound then
    ⟨0, "tcp   LISTEN 0      128    127.0.0.1:" ++ toString port ++ "\n", ""⟩
  else ⟨0, "no\n", ""⟩

/-- `check_port` (lines 30-33): bound iff the output is not `no` (the
output itself is also returned for display). -/
def check_port (bound : Bool) (port : Nat) : Bool × String :=
  let result := verify_run_command (portReply bound port)
  (result != "no", result)

/-- Captured output of `id {username} 2>/dev/null || echo 'no'`
(line 37). -/
def userReply (present : Bool) (username : String) : CmdResult :=
  if present then
    ⟨0, "uid=999(" ++ username ++ ") gid=999(" ++ username ++ ") groups=999(" ++
      username ++ ")\n", ""⟩
  else ⟨0, "no\n", ""⟩

/-- `check_user` (lines 35-38): present iff the output is not `no`. -/
def check_user (present : Bool) (username : String) : Bool :=
  verify_run_command (userReply present username) != "no"

/-- Captured output of
`sudo -u postgres psql -lqt | cut -d \| -f 1 | grep -qw {db} && echo 'yes' || echo 'no'`
(line 42). -/
def dbReply (present : Bool) : CmdResult :=
  if present then ⟨0, "yes\n", ""⟩ else ⟨0, "no\n", ""⟩

/-- `check_database` (lines 40-43): present iff the output equals `yes`. -/
def check_database (present : Bool) : Bool :=
  verify_run_command (dbReply present) == "yes"

/-- The per-environment row of probe results computed by `main` of
`verify_odoo.py` (lines 66-95). -/
structure VerificationReport where
  service_ok : Bool
  port_ok : Bool
  user_ok : Bool
  db_ok : Bool
  config_ok : Bool
  nginx_ok : Bool
deriving DecidableEq

/-- The six probes of `verify_odoo.py`'s `main` for one environment: the
config and vhost probes are direct `os.path.exists` tests. -/
def audit (port : Nat) (username : String) (h : HostState) :
    VerificationReport :=
  { service_ok := check_service h.serviceActive,
    port_ok := (check_port h.portBound port).1,
    user_ok := check_user h.userPresent username,
    db_ok := check_database h.dbPresent,
    config_ok := h.configFilePresent,
    nginx_ok := h.nginxLinkPresent }

/-- The overall status of a row (line 95):
`"OK" if all([service_ok, port_ok, user_ok, db_ok, config_ok, nginx_ok])`. -/
def overallPass (r : VerificationReport) : Bool :=
  r.service_ok && r.port_ok && r.user_ok && r.db_ok && r.config_ok &&
    r.nginx_ok

/-- A YAML scalar as it appears in the configuration mappings. -/
inductive YVal where
  | s (v : String)
  | n (v : Int)
  | b (v : Bool)
deriving DecidableEq

/-- A loaded YAML mapping, modelled as a Python dict: a partial map from
key to value. -/
def Config : Type := String → Option YVal

/-- `config[k] = v`: Python dict item assignment. -/
def Config.set (c : Config) (k : String) (v : YVal) : Config :=
  fun q => if q = k then some v else c q

/-- `config.update(override)`: Python `dict.update` — keys of the
override win, keys absent from the override keep their value. -/
def dictUpdate (c : Config) (override : Config) : Config :=
  fun q => match override q with
    | some v => some v
    | none => c q

/-- The configuration directory as `load_environment_config` observes it:
the parsed default mapping when `default_config.yaml` exists, and the
parsed per-environment mapping when `{env}.yaml` exists. -/
structure ConfigDir where
  defaultConfig : Option Config
  envConfig : String → Option Config

/-- `load_environment_config(env_name, config_dir)` of `install.py`
(lines 129-163): start from the default mapping if its file exists (else
from `{}`, with a warning), update with the per-environment mapping if
its file exists (else warn), then set `config['environment'] = env_name`.
The function is total: no branch raises and no key is validated. -/
def load_environment_config (env_name : String) (dir : ConfigDir) : Config :=
  let config := match dir.defaultConfig with
    | some c => c
    | none => fun _ => none
  let config := match dir.envConfig env_name with
    | some envC => dictUpdate config envC
    | none => config
  Config.set config "environment" (YVal.s env_name)

/-- A configuration directory with neither a default mapping file nor any
per-environment file. -/
def emptyConfigDir : ConfigDir :=
  { defaultConfig := none, envConfig := fun _ => none }

/-- The mapping holding only the injected `environment` key. -/
def envOnlyMapping (env_name : String) : Config :=
  fun q => if q = "environment" then some (YVal.s env_name) else none

/-- `required_keys` of `Environment._validate_config` in
`lib/environment.py` (embedded in `setup_project.py`, lines 383-394). -/
def required_keys : List String := ["odoo_version", "port", "prefix"]

/-- `Environment._get_default_prefix` (embedded `lib/environment.py`):
static name-to-prefix table with fallback `{name}_`. -/
def get_default_pfx (name : String) : String :=
  if name = "production" then "prod_"
  else if name = "uat" then "uat_"
  else if name = "testing" then "test_"
  else if name = "training" then "train_"
  else name ++ "_"

/-- The derived-default injection done by `Environment.__init__` before
validation: `prefix` from the static table when absent, then `domain` as
`{name}.example.com` when absent. -/
def env_init_inject (name : String) (c : Config) : Config :=
  let c1 := if (c "prefix").isNone
    then c.set "prefix" (YVal.s (get_default_pfx name)) else c
  if (c1 "domain").isNone
    then c1.set "domain" (YVal.s (name ++ ".example.com")) else c1

/-- `Environment._validate_config`: raise `ValueError` at the first
required key missing from the config, else return normally. -/
def validate_config (name : String) (c : Config) : Except String Unit :=
  match required_keys.find? (fun k => (c k).isNone) with
  | some k => .error ("Configuración incompleta para el entorno " ++ name ++
      ": falta \x27" ++ k ++ "\x27")
  | none => .ok ()

/-- Abstract per-target outcome of one `setup_environment` run: `none`
when the target's pipeline completes, `some e` when some stage raises the
exception `e`. -/
def TargetOutcome : Type := String → Option PyError

/-- The `for env_name in args.environments: setup_environment(env_name)`
loop inside the `try` of `main` in `install_odoo.py` (lines 438-440):
returns the list of targets whose setup was invoked and the first
uncaught exception, if any.  An exception aborts the loop — there is no
per-target handler. -/
def runEnvsOdoo (outcome : TargetOutcome) : List String →
    List String × Option PyError
  | [] => ([], none)
  | e :: rest =>
    match outcome e with
    | none =>
      let p := runEnvsOdoo outcome rest
      (e :: p.1, p.2)
    | some err => ([e], some err)

/-- The final-summary line printed for one environment on the success
path of `main` (line 446). -/
def summaryLine (env_name : String) : String :=
  "  - " ++ pyCapitalize env_name ++ ": http://localhost:" ++
    toString (match lookupEnv env_name with
      | some cfg => cfg.port
      | none => 0)

/-- Result of `main` of `install_odoo.py` (lines 418-451): the exit code,
the targets whose `setup_environment` was invoked, and the per-target
summary lines printed.  The whole loop sits in one `try`: on the success
path the function returns 0 and prints one access line per selected
environment (lines 443-446); on any exception it logs the error, returns
1, and prints no per-target lines (lines 449-451). -/
structure OdooMainResult where
  exitCode : Nat
  attempted : List String
  summaryLines : List String
deriving DecidableEq

/-- `main` of `install_odoo.py` restricted to the per-environment part
(the shared `install_dependencies` and the nginx reload are assumed to
succeed; they precede every target equally). -/
def main_odoo (outcome : TargetOutcome) (envs : List String) :
    OdooMainResult :=
  match runEnvsOdoo outcome envs with
  | (att, none) => ⟨0, att, envs.map summaryLine⟩
  | (att, some _) => ⟨1, att, []⟩

/-- `setup_environment` of `install.py` (lines 191-257) at the per-target
boundary: its whole body sits in a `try` whose handler logs the error and
returns `False`, so the caller always receives a boolean. -/
def setup_environment_install_ok (outcome : Option PyError) : Bool :=
  match outcome with
  | none => true
  | some _ => false

/-- The `for env in environments` loop of `main` in `install.py`
(lines 291-299): every selected target is processed and its boolean
result recorded in `results`, in order. -/
def main_install_results (outcome : TargetOutcome) (envs : List String) :
    List (String × Bool) :=
  envs.map (fun e => (e, setup_environment_install_ok (outcome e)))

/-- The exit decision of `main` in `install.py` (lines 311-320):
0 when `all(results.values())`, else 1; the per-target summary
(lines 306-308) prints every entry of `results` in both cases. -/
def install_exit (results : List (String × Bool)) : Nat :=
  if results.all (fun r => r.2) then 0 else 1

/-- Structural prefix test on character lists (the library
`String.startsWith` is not kernel-reducible). -/
def listIsPrefixOf : List Char → List Char → Bool
  | [], _ => true
  | _ :: _, [] => false
  | a :: as, b :: bs => a == b && listIsPrefixOf as bs

/-- Structural `startsWith` on strings. -/
def strStartsWith (pre s : String) : Bool := listIsPrefixOf pre.data s.data

/-- Structural `endsWith` on strings. -/
def strEndsWith (post s : String) : Bool :=
  listIsPrefixOf post.data.reverse s.data.reverse

/-- Drop characters up to and including the first slash; `none` when the
list holds no slash. -/
def dropUntilSlash : List Char → Option (List Char)
  | [] => none
  | c :: cs => if c = '/' then some cs else dropUntilSlash cs

/-- The directory part of a path: the text before the last `/`, empty
for a bare file name (which the OS resolves in the process's current
working directory). -/
def dirOf (p : String) : String :=
  match dropUntilSlash p.data.reverse with
  | none => ""
  | some rest => String.mk rest.reverse

/-- Whether an action is a shell command that sets ownership or
permission bits.  Every such command emitted by `setup_environment`
begins with `sudo chown ` or `sudo chmod `. -/
def setsOwnershipOrMode (a : Act) : Bool :=
  match a with
  | .run c => strStartsWith "sudo chown " c || strStartsWith "sudo chmod " c
  | .pyWrite _ _ => false

/-- Whether an action is a shell command whose final argument is the
given path (all chown/chmod/mv commands in the trace end with their
target path). -/
def endsWithPath (a : Act) (p : String) : Bool :=
  match a with
  | .run c => strEndsWith p c
  | .pyWrite _ _ => false

/-- Whether an action writes a file directly from Python; the write
targets a `temp…` name in the current working directory iff the path has
no directory part and starts with `temp`. -/
def pyWriteOnlyTempCwd (a : Act) : Bool :=
  match a with
  | .run _ => true
  | .pyWrite p _ => strStartsWith "temp" p && dirOf p = ""

/-- Whether `setup_environment` of `install.py` (lines 230-233) invokes
`useradd` for the given user, given whether the system user is present.
The source stores the *success flag* of
`run_command(f"id -u {odoo_user} > /dev/null 2>&1 || echo 'no'", check=False)`
in `user_exists` and runs `useradd` only `if not user_exists`. -/
def install_py_invokes_useradd (odoo_user_name : String) (present : Bool) :
    Bool :=
  let user_exists := (run_command_install
    ("id -u " ++ odoo_user_name ++ " > /dev/null 2>&1 || echo \x27no\x27")
    (guardReply present) false false).1
  !user_exists

/-- C1 (code_bug): the check-then-create contract says that when the
existence check reports absence the create command runs exactly once.
`install_odoo.py` honours it, but `install.py` binds `user_exists` to the
success flag of the guard command, and the guard ends in `|| echo 'no'`,
so it always exits 0 and the flag is always `True`: `useradd` is never
invoked — in particular not when the user is absent and the guard printed
`no`. -/
theorem install_py_useradd_never_runs :
  install_py_invokes_useradd "production_odoo" false = false ∧
  install_py_invokes_useradd "production_odoo" true = false := by decide

/-- Disjointness of every derived per-target resource name between two
environment configurations: system user, database, service unit, config
file, vhost file, log directory, home directory, main port and derived
longpolling port (also across the two kinds of port). -/
def derivedNamesDisjoint (a b : EnvConfig) : Prop :=
  odoo_user a.pfx ≠ odoo_user b.pfx ∧
  db_name a.pfx ≠ db_name b.pfx ∧
  service_file a.pfx ≠ service_file b.pfx ∧
  config_file a.pfx ≠ config_file b.pfx ∧
  nginx_conf a.pfx ≠ nginx_conf b.pfx ∧
  odoo_log_dir a.pfx ≠ odoo_log_dir b.pfx ∧
  odoo_home a.pfx ≠ odoo_home b.pfx ∧
  a.port ≠ b.port ∧
  longpolling_port a.port ≠ longpolling_port b.port ∧
  a.port ≠ longpolling_port b.port ∧
  longpolling_port a.port ≠ b.port

instance (a b : EnvConfig) : Decidable (derivedNamesDisjoint a b) := by
  unfold derivedNamesDisjoint
  infer_instance

/-- C7 (confirmed): for every pair of distinct targets in `ENVIRONMENTS`,
all derived resource names and both service ports (main and derived
longpolling, main + 1000) are disjoint. -/
theorem namespace_isolation :
  ∀ a ∈ ENVIRONMENTS, ∀ b ∈ ENVIRONMENTS,
    a.1 ≠ b.1 → derivedNamesDisjoint a.2 b.2 := by decide

/-- Witness for `namespace_isolation` at the production/uat pair. -/
theorem namespace_isolation_witness :
  derivedNamesDisjoint
    (EnvConfig.mk "prod_" 8069 "production.example.com" "4G")
    (EnvConfig.mk "uat_" 8070 "uat.example.com" "2G") :=
  namespace_isolation
    ("production", EnvConfig.mk "prod_" 8069 "production.example.com" "4G")
    (by decide)
    ("uat", EnvConfig.mk "uat_" 8070 "uat.example.com" "2G")
    (by decide) (by decide)

/-- A run in which the uat target's `useradd` fails and every other
target would succeed. -/
def outcomeUatFails : TargetOutcome :=
  fun e => if e = "uat" then
    some (PyError.calledProcessError (useraddCmd "uat_") 1
      "useradd: cannot lock /etc/passwd; try again later.")
  else none

/-- C2 (corrected), counterexample: in `install_odoo.py` the whole
per-target loop sits inside one `try`, so when the uat pipeline raises,
the testing target — scheduled after it — is never attempted, contrary to
the claim that every other target is still attempted. -/
theorem odoo_failure_aborts_later_targets :
  (main_odoo outcomeUatFails ["production", "uat", "testing"]).attempted =
    ["production", "uat"] ∧
  "testing" ∉
    (main_odoo outcomeUatFails ["production", "uat", "testing"]).attempted ∧
  (main_odoo outcomeUatFails ["production", "uat", "testing"]).exitCode = 1 := by
  decide

/-- A run in which the production target fails and uat would succeed. -/
def outcomeProductionFails : TargetOutcome :=
  fun e => if e = "production" then
    some (PyError.calledProcessError "sudo apt update" 100
      "E: Could not get lock /var/lib/apt/lists/lock")
  else none

/-- C9 (corrected), counterexample: when any target fails,
`install_odoo.py`'s `main` returns 1 from its `except` handler without
reaching the summary loop, so no per-target summary line is produced —
contrary to the claim that a per-target summary appears in both cases. -/
theorem odoo_failed_run_has_no_summary :
  (main_odoo outcomeProductionFails ["production", "uat"]).exitCode = 1 ∧
  (main_odoo outcomeProductionFails ["production", "uat"]).summaryLines = [] := by
  decide

/-- C4 (corrected), counterexample: with neither the default mapping file
nor the per-target file present, `load_environment_config` does not fail
with any error — it returns the settings mapping that holds only the
injected `environment` key. -/
theorem load_config_missing_files_returns_mapping :
  load_environment_config "uat" emptyConfigDir = envOnlyMapping "uat" := rfl

/-- The final `config['environment'] = env_name` assignment makes every
resolved mapping carry the target name, on every path of
`load_environment_config`. -/
lemma load_sets_environment_key (env_name : String) (dir : ConfigDir) :
    load_environment_config env_name dir "environment" =
      some (YVal.s env_name) := by
  unfold load_environment_config
  cases dir.defaultConfig <;> cases dir.envConfig env_name <;>
    simp [Config.set]

/-- C3 (confirmed): the layering rule of `load_environment_config`.  For
any key other than the injected `environment` key: when the per-target
override file exists and holds the key, the resolved value is the
override's; when the key is absent from the override, or the override
file does not exist, the resolved value is the default mapping's. -/
theorem config_layering_precedence (env_name k : String) (dir : ConfigDir)
    (d : Config) (vo : YVal)
    (hd : dir.defaultConfig = some d) (hk : k ≠ "environment") :
    (∀ o, dir.envConfig env_name = some o → o k = some vo →
      load_environment_config env_name dir k = some vo) ∧
    (∀ o, dir.envConfig env_name = some o → o k = none →
      load_environment_config env_name dir k = d k) ∧
    (dir.envConfig env_name = none →
      load_environment_config env_name dir k = d k) := by
  unfold load_environment_config
  rw [hd]
  refine ⟨?_, ?_, ?_⟩
  · intro o ho hv
    rw [ho]
    simp [Config.set, dictUpdate, hk, hv]
  · intro o ho hv
    rw [ho]
    simp [Config.set, dictUpdate, hk, hv]
  · intro hno
    rw [hno]
    simp [Config.set, hk]

/-- The default mapping of the claimed example scenario:
`servicePort: 8069`. -/
def demo_default : Config :=
  fun q => if q = "servicePort" then some (YVal.n 8069) else none

/-- The uat override of the example scenario: `servicePort: 8070`. -/
def demo_uat_override : Config :=
  fun q => if q = "servicePort" then some (YVal.n 8070) else none

/-- A configuration directory holding the default mapping and a uat
override, and no other per-target file. -/
def demo_config_dir : ConfigDir :=
  { defaultConfig := some demo_default,
    envConfig := fun e => if e = "uat" then some demo_uat_override else none }

/-- Witness for `config_layering_precedence`: resolving uat yields the
override's 8070 and resolving production yields the default's 8069. -/
theorem config_layering_precedence_witness :
    load_environment_config "uat" demo_config_dir "servicePort" =
      some (YVal.n 8070) ∧
    load_environment_config "production" demo_config_dir "servicePort" =
      some (YVal.n 8069) := by
  constructor
  · exact (config_layering_precedence "uat" "servicePort" demo_config_dir
      demo_default (YVal.n 8070) rfl (by decide)).1 demo_uat_override rfl rfl
  · exact (config_layering_precedence "production" "servicePort"
      demo_config_dir demo_default (YVal.n 8069) rfl (by decide)).2.2 rfl

/-- C10 (confirmed): `load_environment_config` is total over missing
configuration files — it always returns a mapping whose `environment` key
is the target name, and with both files absent it returns the mapping
holding only that key; no other key is ever validated. -/
theorem load_environment_config_total (env_name : String) (dir : ConfigDir) :
    load_environment_config env_name dir "environment" =
      some (YVal.s env_name) ∧
    (dir.defaultConfig = none → dir.envConfig env_name = none →
      load_environment_config env_name dir = envOnlyMapping env_name) := by
  refine ⟨load_sets_environment_key env_name dir, ?_⟩
  intro h1 h2
  unfold load_environment_config envOnlyMapping
  rw [h1, h2]
  rfl

/-- Witness for `load_environment_config_total` on an empty configuration
directory. -/
theorem load_environment_config_total_witness :
    load_environment_config "training" emptyConfigDir "environment" =
      some (YVal.s "training") ∧
    load_environment_config "training" emptyConfigDir =
      envOnlyMapping "training" :=
  ⟨(load_environment_config_total "training" emptyConfigDir).1,
   (load_environment_config_total "training" emptyConfigDir).2 rfl rfl⟩

/-- The `Environment.__init__` injection only touches the `prefix` and
`domain` keys. -/
lemma env_init_inject_get_other (name : String) (c : Config) (k : String)
    (h1 : k ≠ "prefix") (h2 : k ≠ "domain") :
    env_init_inject name c k = c k := by
  unfold env_init_inject
  split <;> split <;> simp [Config.set, h1, h2]

/-- After the `Environment.__init__` injection the `prefix` key is always
present. -/
lemma env_init_inject_pfx_some (name : String) (c : Config) :
    (env_init_inject name c "prefix").isSome = true := by
  unfold env_init_inject
  rcases hc : c "prefix" with _ | v
  · simp [hc, Config.set]
    split <;> simp [Config.set]
  · simp [hc, Config.set]
    split <;> simp [Config.set, hc]

/-- C4 (corrected), amended: configuration resolution never fails —
`load_environment_config` always returns a mapping carrying the
`environment` key.  Required-key validation lives elsewhere: the embedded
`Environment._validate_config` raises `ValueError` (not a
`ConfigurationError`) exactly when `odoo_version` or `port` is missing
from the config (its third required key, `prefix`, has already been
injected by `__init__` before validation). -/
theorem config_validation_amended (name env_name : String)
    (dir : ConfigDir) (c : Config) :
    load_environment_config env_name dir "environment" =
      some (YVal.s env_name) ∧
    (validate_config name (env_init_inject name c) = Except.ok () ↔
      (c "odoo_version").isSome = true ∧ (c "port").isSome = true) := by
  refine ⟨load_sets_environment_key env_name dir, ?_⟩
  have e1 : env_init_inject name c "odoo_version" = c "odoo_version" :=
    env_init_inject_get_other name c _ (by decide) (by decide)
  have e2 : env_init_inject name c "port" = c "port" :=
    env_init_inject_get_other name c _ (by decide) (by decide)
  have e3 : (env_init_inject name c "prefix").isNone = false := by
    have := env_init_inject_pfx_some name c
    rcases h : env_init_inject name c "prefix" with _ | v
    · rw [h] at this
      simp at this
    · rfl
  unfold validate_config
  rcases h1 : c "odoo_version" with _ | v1
  · rw [h1] at e1
    simp [required_keys, List.find?, e1, h1]
  · rcases h2 : c "port" with _ | v2
    · rw [h1] at e1
      rw [h2] at e2
      simp [required_keys, List.find?, e1, e2, h2]
    · rw [h1] at e1
      rw [h2] at e2
      simp [required_keys, List.find?, e1, e2, e3]

/-- The targets attempted by `install_odoo.py`'s loop form a prefix of
the selected targets: the loop runs them in order and stops at the first
uncaught exception. -/
lemma runEnvsOdoo_attempted_is_prefix (outcome : TargetOutcome)
    (envs : List String) :
    ∃ rest, envs = (runEnvsOdoo outcome envs).1 ++ rest := by
  induction envs with
  | nil => exact ⟨[], rfl⟩
  | cons e r ih =>
    cases h : outcome e with
    | none =>
      obtain ⟨rest, hr⟩ := ih
      refine ⟨rest, ?_⟩
      simp only [runEnvsOdoo, h]
      simpa using hr
    | some err =>
      refine ⟨r, ?_⟩
      simp [runEnvsOdoo, h]

/-- `main` of `install_odoo.py` reports as attempted exactly the targets
its loop reached. -/
lemma main_odoo_attempted (outcome : TargetOutcome) (envs : List String) :
    (main_odoo outcome envs).attempted = (runEnvsOdoo outcome envs).1 := by
  unfold main_odoo
  rcases h : runEnvsOdoo outcome envs with ⟨att, err⟩
  cases err <;> simp

/-- The loop of `install_odoo.py` raises no exception exactly when every
selected target's outcome is clean. -/
lemma runEnvsOdoo_clean_iff (outcome : TargetOutcome) (envs : List String) :
    (runEnvsOdoo outcome envs).2 = none ↔ ∀ e ∈ envs, outcome e = none := by
  induction envs with
  | nil => simp [runEnvsOdoo]
  | cons e r ih =>
    cases h : outcome e with
    | none => simp [runEnvsOdoo, h, ih]
    | some err => simp [runEnvsOdoo, h]

/-- The boolean returned by `install.py`'s `setup_environment` is `True`
exactly when no stage raised. -/
lemma setup_environment_install_ok_iff (o : Option PyError) :
    setup_environment_install_ok o = true ↔ o = none := by
  cases o <;> simp [setup_environment_install_ok]

/-- C2 (corrected), amended: in `install.py` the per-target boundary is
the `try` inside `setup_environment`, which converts any stage exception
into a `False` result, so `main`'s loop records a result for every
selected target, in order, and each target's recorded result depends only
on its own outcome; in `install_odoo.py` there is no per-target handler,
so the attempted targets are only a prefix of the selected ones — an
uncaught exception prevents the targets scheduled after it from being
attempted. -/
theorem per_target_failure_isolation_amended (outcome : TargetOutcome)
    (envs : List String) :
    ((main_install_results outcome envs).map Prod.fst = envs) ∧
    (∀ e ∈ envs, (e, setup_environment_install_ok (outcome e)) ∈
      main_install_results outcome envs) ∧
    (∃ rest, envs = (main_odoo outcome envs).attempted ++ rest) := by
  refine ⟨?_, ?_, ?_⟩
  · unfold main_install_results
    rw [List.map_map]
    have hid : (Prod.fst ∘ fun e => (e, setup_environment_install_ok (outcome e)))
        = fun e : String => e := rfl
    rw [hid, List.map_id']
  · intro e he
    exact List.mem_map_of_mem _ he
  · rw [main_odoo_attempted]
    exact runEnvsOdoo_attempted_is_prefix outcome envs

/-- Witness for `per_target_failure_isolation_amended`: with the uat
target failing, `install.py` still records results for all three
targets while `install_odoo.py` only attempted a prefix. -/
theorem per_target_failure_isolation_amended_witness :
    ((main_install_results outcomeUatFails ["production", "uat", "testing"]).map
      Prod.fst = ["production", "uat", "testing"]) ∧
    ("testing", setup_environment_install_ok (outcomeUatFails "testing")) ∈
      main_install_results outcomeUatFails ["production", "uat", "testing"] ∧
    (∃ rest, ["production", "uat", "testing"] =
      (main_odoo outcomeUatFails ["production", "uat", "testing"]).attempted
        ++ rest) :=
  ⟨(per_target_failure_isolation_amended outcomeUatFails
      ["production", "uat", "testing"]).1,
   (per_target_failure_isolation_amended outcomeUatFails
      ["production", "uat", "testing"]).2.1 "testing" (by decide),
   (per_target_failure_isolation_amended outcomeUatFails
      ["production", "uat", "testing"]).2.2⟩

/-- C9 (corrected), amended: for both installers the process exit code is
0 exactly when every selected target's pipeline succeeds and 1 otherwise;
`install.py` prints its per-target pass/fail summary in both cases (one
entry per selected target), while `install_odoo.py` prints its per-target
access lines only when the whole run succeeded. -/
theorem exit_code_amended (outcome : TargetOutcome) (envs : List String) :
    ((main_odoo outcome envs).exitCode = 0 ↔ ∀ e ∈ envs, outcome e = none) ∧
    (install_exit (main_install_results outcome envs) = 0 ↔
      ∀ e ∈ envs, outcome e = none) ∧
    ((main_install_results outcome envs).map Prod.fst = envs) ∧
    ((∀ e ∈ envs, outcome e = none) →
      (main_odoo outcome envs).summaryLines = envs.map summaryLine) := by
  refine ⟨?_, ?_, ?_, ?_⟩
  · rw [← runEnvsOdoo_clean_iff]
    unfold main_odoo
    rcases h : runEnvsOdoo outcome envs with ⟨att, err⟩
    cases err <;> simp
  · unfold install_exit
    have hiff : ((main_install_results outcome envs).all (fun r => r.2) = true) ↔
        ∀ e ∈ envs, outcome e = none := by
      rw [List.all_eq_true]
      constructor
      · intro h e he
        exact (setup_environment_install_ok_iff (outcome e)).1
          (h (e, setup_environment_install_ok (outcome e))
            (List.mem_map_of_mem _ he))
      · intro h x hx
        unfold main_install_results at hx
        rw [List.mem_map] at hx
        obtain ⟨e, he, rfl⟩ := hx
        exact (setup_environment_install_ok_iff (outcome e)).2 (h e he)
    split
    · rename_i hall
      simpa using hiff.1 hall
    · rename_i hall
      constructor
      · intro h
        exact absurd h (by decide)
      · intro h
        exact absurd (hiff.2 h) hall
  · unfold main_install_results
    rw [List.map_map]
    have hid : (Prod.fst ∘ fun e => (e, setup_environment_install_ok (outcome e)))
        = fun e : String => e := rfl
    rw [hid, List.map_id']
  · intro h
    have hc := (runEnvsOdoo_clean_iff outcome envs).2 h
    unfold main_odoo
    rcases heq : runEnvsOdoo outcome envs with ⟨att, err⟩
    rw [heq] at hc
    simp only at hc
    subst hc
    simp

/-- C6 (corrected), counterexample: in `install.py`, a strict
(`check=True`) command that exits non-zero does not make the call fail —
`run_command` catches the `CalledProcessError` and returns it as a normal
`(False, str(e))` pair, and `str(e)` is the exception's own text, not the
captured stderr. -/
theorem run_command_install_strict_returns_normally :
    run_command_install "systemctl start prod_odoo.service"
      ⟨1, "", "Failed to start prod_odoo.service: Unit not found."⟩
      true true =
      (false,
        calledProcessErrorText "sudo systemctl start prod_odoo.service" 1) ∧
    calledProcessErrorText "sudo systemctl start prod_odoo.service" 1 ≠
      "Failed to start prod_odoo.service: Unit not found." := by
  exact ⟨rfl, by decide⟩

/-- C6 (corrected), amended: `install_odoo.py`'s `run_command` raises
`CalledProcessError` carrying the captured stderr on a strict non-zero
exit and returns the stripped stdout on a lenient call (stderr is logged,
not returned); `install.py`'s `run_command` never raises — it returns
`(True, stdout)` on exit 0, `(False, stderr)` on a lenient non-zero exit,
and `(False, exception text)` on a strict non-zero exit.  Both capture
stdout and stderr separately. -/
theorem run_command_semantics_amended (cmd : String) (res : CmdResult) :
    (res.exitCode ≠ 0 → run_command_odoo cmd res true =
      Except.error (PyError.calledProcessError cmd res.exitCode res.stderr)) ∧
    (run_command_odoo cmd res false = Except.ok (pyStrip res.stdout)) ∧
    (res.exitCode = 0 → run_command_install cmd res false false =
      (true, res.stdout)) ∧
    (res.exitCode = 0 → run_command_install cmd res true false =
      (true, res.stdout)) ∧
    (res.exitCode ≠ 0 → run_command_install cmd res false false =
      (false, res.stderr)) ∧
    (res.exitCode ≠ 0 → run_command_install cmd res true false =
      (false, calledProcessErrorText cmd res.exitCode)) := by
  refine ⟨?_, ?_, ?_, ?_, ?_, ?_⟩
  · intro h
    simp [run_command_odoo, h]
  · simp [run_command_odoo]
  · intro h
    simp [run_command_install, h]
  · intro h
    simp [run_command_install, h]
  · intro h
    simp [run_command_install, h]
  · intro h
    simp [run_command_install, h]

/-- Witness for `run_command_semantics_amended` at a concrete failing
command result. -/
theorem run_command_semantics_amended_witness :
    run_command_odoo "id -u prod_odoo" ⟨2, "", "id: prod_odoo: no such user"⟩
      true = Except.error
        (PyError.calledProcessError "id -u prod_odoo" 2
          "id: prod_odoo: no such user") ∧
    run_command_install "id -u prod_odoo"
      ⟨2, "", "id: prod_odoo: no such user"⟩ false false =
      (false, "id: prod_odoo: no such user") ∧
    run_command_install "id -u prod_odoo"
      ⟨2, "", "id: prod_odoo: no such user"⟩ true false =
      (false, calledProcessErrorText "id -u prod_odoo" 2) :=
  ⟨(run_command_semantics_amended "id -u prod_odoo"
      ⟨2, "", "id: prod_odoo: no such user"⟩).1 (by decide),
   (run_command_semantics_amended "id -u prod_odoo"
      ⟨2, "", "id: prod_odoo: no such user"⟩).2.2.2.2.1 (by decide),
   (run_command_semantics_amended "id -u prod_odoo"
      ⟨2, "", "id: prod_odoo: no such user"⟩).2.2.2.2.2 (by decide)⟩

/-- The environments table of `verify_odoo.py` (lines 47-52):
name, prefix, port. -/
def verifyEnvironments : List (String × String × Nat) :=
  [ ("production", "prod_", 8069),
    ("uat", "uat_", 8070),
    ("testing", "test_", 8071),
    ("training", "train_", 8072) ]

/-- C8 (confirmed): verification never raises (every probe is modelled by
a total function because each shell probe runs with `check=False` and the
file probes are `os.path.exists`); each of the six probes reports exactly
the corresponding host fact, mapping absence or failure to `false`; and
the overall status is `OK` exactly when all six probes are true — so a
stopped service yields `service_ok = false` and an overall `false`,
purely as a function of the observed host state. -/
theorem verify_audit_report (name pfx : String) (port : Nat)
    (hmem : (name, pfx, port) ∈ verifyEnvironments) (h : HostState) :
    (audit port (pfx ++ "odoo") h).service_ok = h.serviceActive ∧
    (audit port (pfx ++ "odoo") h).port_ok = h.portBound ∧
    (audit port (pfx ++ "odoo") h).user_ok = h.userPresent ∧
    (audit port (pfx ++ "odoo") h).db_ok = h.dbPresent ∧
    (audit port (pfx ++ "odoo") h).config_ok = h.configFilePresent ∧
    (audit port (pfx ++ "odoo") h).nginx_ok = h.nginxLinkPresent ∧
    (overallPass (audit port (pfx ++ "odoo") h) = true ↔
      (h.serviceActive = true ∧ h.portBound = true ∧ h.userPresent = true ∧
       h.dbPresent = true ∧ h.configFilePresent = true ∧
       h.nginxLinkPresent = true)) ∧
    (h.serviceActive = false →
      overallPass (audit port (pfx ++ "odoo") h) = false) := by
  fin_cases hmem <;>
    (rcases h with ⟨s, pb, u, d, c, n⟩ ;
     cases s <;> cases pb <;> cases u <;> cases d <;> cases c <;> cases n <;>
       decide)

/-- Witness for `verify_audit_report`: auditing production with a stopped
service (everything else present) reports `service_ok = false` and an
overall `false`. -/
theorem verify_audit_report_witness :
    (audit 8069 ("prod_" ++ "odoo")
      ⟨false, true, true, true, true, true⟩).service_ok = false ∧
    overallPass (audit 8069 ("prod_" ++ "odoo")
      ⟨false, true, true, true, true, true⟩) = false :=
  ⟨(verify_audit_report "production" "prod_" 8069 (by decide)
      ⟨false, true, true, true, true, true⟩).1,
   (verify_audit_report "production" "prod_" 8069 (by decide)
      ⟨false, true, true, true, true, true⟩).2.2.2.2.2.2.2 rfl⟩

/-- Every Python file write in the user step targets a cwd temp name
(vacuously: the step only runs shell commands). -/
lemma step_user_writes_temp (cfg : EnvConfig) (s : SysState) :
    (step_user cfg s).all pyWriteOnlyTempCwd = true := by
  unfold step_user
  split <;> rfl

/-- Every Python file write in the directory step targets a cwd temp
name (vacuously). -/
lemma step_dirs_writes_temp (cfg : EnvConfig) :
    (step_dirs cfg).all pyWriteOnlyTempCwd = true := rfl

/-- Every Python file write in the clone step targets a cwd temp name
(vacuously). -/
lemma step_clone_writes_temp (cfg : EnvConfig) (s : SysState) :
    (step_clone cfg s).all pyWriteOnlyTempCwd = true := by
  unfold step_clone
  split <;> rfl

/-- Every Python file write in the venv step targets a cwd temp name
(vacuously). -/
lemma step_venv_writes_temp (cfg : EnvConfig) (s : SysState) :
    (step_venv cfg s).all pyWriteOnlyTempCwd = true := by
  unfold step_venv
  split <;> rfl

/-- Every Python file write in the PostgreSQL step targets a cwd temp
name (vacuously). -/
lemma step_postgres_writes_temp (env_name : String) (cfg : EnvConfig)
    (s : SysState) :
    (step_postgres env_name cfg s).all pyWriteOnlyTempCwd = true := by
  unfold step_postgres
  split <;> split <;> rfl

/-- The config-file step writes Python-side only to the cwd temp name
`temp_config.conf`, never to the final path. -/
lemma step_config_writes_temp (env_name : String) (cfg : EnvConfig)
    (s : SysState) :
    (step_config env_name cfg s).all pyWriteOnlyTempCwd = true := by
  unfold step_config config_write_block
  split <;> rfl

/-- The service step writes Python-side only to the cwd temp name
`temp_service.service`. -/
lemma step_service_writes_temp (env_name : String) (cfg : EnvConfig)
    (s : SysState) :
    (step_service env_name cfg s).all pyWriteOnlyTempCwd = true := by
  unfold step_service service_write_block
  split <;> rfl

/-- The vhost step writes Python-side only to the cwd temp name
`temp_nginx.conf`. -/
lemma step_nginx_writes_temp (cfg : EnvConfig) (s : SysState) :
    (step_nginx cfg s).all pyWriteOnlyTempCwd = true := by
  unfold step_nginx nginx_write_block
  split <;> rfl

/-- The permissions step performs no Python file write. -/
lemma step_perms_writes_temp (cfg : EnvConfig) :
    (step_perms cfg).all pyWriteOnlyTempCwd = true := rfl

/-- The module step writes Python-side only to cwd temp names. -/
lemma step_module_writes_temp (cfg : EnvConfig) (s : SysState) :
    (step_module cfg s).all pyWriteOnlyTempCwd = true := by
  unfold step_module
  split <;> rfl

/-- The start step performs no Python file write. -/
lemma step_start_writes_temp (cfg : EnvConfig) :
    (step_start cfg).all pyWriteOnlyTempCwd = true := rfl

/-- The status step performs no Python file write. -/
lemma step_status_writes_temp (cfg : EnvConfig) :
    (step_status cfg).all pyWriteOnlyTempCwd = true := rfl

/-- Across the whole provisioning trace, every Python file write targets
a `temp…` name in the process's current working directory: final
artifact paths are only ever populated by a `mv` of a completely written
temp file, never written directly. -/
lemma setup_env_actions_writes_temp (env_name : String) (cfg : EnvConfig)
    (s : SysState) :
    (setup_env_actions env_name cfg s).all pyWriteOnlyTempCwd = true := by
  unfold setup_env_actions
  simp [List.all_append, step_user_writes_temp, step_dirs_writes_temp,
    step_clone_writes_temp, step_venv_writes_temp, step_postgres_writes_temp,
    step_config_writes_temp, step_service_writes_temp, step_nginx_writes_temp,
    step_perms_writes_temp, step_module_writes_temp, step_start_writes_temp,
    step_status_writes_temp]

/-- C5 (corrected), amended: each artifact write appears in the trace as
one contiguous block that first writes the complete rendered text to its
temp file in the current working directory and then installs it at the
final path with a single `sudo mv`; after the move the config write sets
ownership and then mode 640, the service-unit write sets mode 644 only,
and the vhost write sets neither; each block is empty (skipped entirely)
when the final path already exists; and no Python write ever targets a
final path directly.  (The temp file lives in the cwd, not in the
destination's filesystem, so the single-`mv` step is a true rename only
when the cwd happens to share a filesystem with the destination.) -/
theorem artifact_write_order_amended (env_name : String) (cfg : EnvConfig)
    (s : SysState) :
    (∃ u v, setup_env_actions env_name cfg s =
      u ++ step_config env_name cfg s ++ v) ∧
    (∃ u v, setup_env_actions env_name cfg s =
      u ++ step_service env_name cfg s ++ v) ∧
    (∃ u v, setup_env_actions env_name cfg s =
      u ++ step_nginx cfg s ++ v) ∧
    (s.configExists = true → step_config env_name cfg s = []) ∧
    (s.configExists = false →
      step_config env_name cfg s = config_write_block env_name cfg) ∧
    (s.serviceExists = true → step_service env_name cfg s = []) ∧
    (s.serviceExists = false →
      step_service env_name cfg s = service_write_block env_name cfg) ∧
    (s.nginxExists = true → step_nginx cfg s = []) ∧
    (s.nginxExists = false → step_nginx cfg s = nginx_write_block cfg) ∧
    (setup_env_actions env_name cfg s).all pyWriteOnlyTempCwd = true := by
  refine ⟨?_, ?_, ?_, ?_, ?_, ?_, ?_, ?_, ?_,
    setup_env_actions_writes_temp env_name cfg s⟩
  · exact ⟨step_user cfg s ++ step_dirs cfg ++ step_clone cfg s ++
      step_venv cfg s ++ step_postgres env_name cfg s,
      step_service env_name cfg s ++ step_nginx cfg s ++ step_perms cfg ++
      step_module cfg s ++ step_start cfg ++ step_status cfg,
      by simp [setup_env_actions, List.append_assoc]⟩
  · exact ⟨step_user cfg s ++ step_dirs cfg ++ step_clone cfg s ++
      step_venv cfg s ++ step_postgres env_name cfg s ++
      step_config env_name cfg s,
      step_nginx cfg s ++ step_perms cfg ++ step_module cfg s ++
      step_start cfg ++ step_status cfg,
      by simp [setup_env_actions, List.append_assoc]⟩
  · exact ⟨step_user cfg s ++ step_dirs cfg ++ step_clone cfg s ++
      step_venv cfg s ++ step_postgres env_name cfg s ++
      step_config env_name cfg s ++ step_service env_name cfg s,
      step_perms cfg ++ step_module cfg s ++ step_start cfg ++
      step_status cfg,
      by simp [setup_env_actions, List.append_assoc]⟩
  · intro h
    simp [step_config, h]
  · intro h
    simp [step_config, h]
  · intro h
    simp [step_service, h]
  · intro h
    simp [step_service, h]
  · intro h
    simp [step_nginx, h]
  · intro h
    simp [step_nginx, h]

/-- The host state in which nothing is provisioned yet. -/
def prodAbsentState : SysState :=
  ⟨false, false, false, false, false, false, false, false, false, false⟩

/-- Witness for `artifact_write_order_amended` on a fresh production
host: the config block is the full write sequence and the whole trace
writes Python-side only to cwd temp names. -/
theorem artifact_write_order_amended_witness :
    step_config "production"
      (EnvConfig.mk "prod_" 8069 "production.example.com" "4G")
      prodAbsentState =
      config_write_block "production"
        (EnvConfig.mk "prod_" 8069 "production.example.com" "4G") ∧
    (setup_env_actions "production"
      (EnvConfig.mk "prod_" 8069 "production.example.com" "4G")
      prodAbsentState).all pyWriteOnlyTempCwd = true :=
  ⟨(artifact_write_order_amended "production"
      (EnvConfig.mk "prod_" 8069 "production.example.com" "4G")
      prodAbsentState).2.2.2.2.1 rfl,
   (artifact_write_order_amended "production"
      (EnvConfig.mk "prod_" 8069 "production.example.com" "4G")
      prodAbsentState).2.2.2.2.2.2.2.2.2⟩

/-- C5 (corrected), counterexample: on a fresh production host the vhost
write is installed by `sudo mv` from the cwd temp file `temp_nginx.conf`
(whose directory `""`, the current working directory, differs from the
destination directory `/etc/nginx/sites-available`, so it is not a
temporary path known to be in the destination's filesystem), and the
trace contains no chown or chmod command targeting the vhost path at all
— contrary to the claim that every artifact write uses a same-filesystem
temp path and afterwards sets ownership and permission bits. -/
theorem vhost_write_violates_atomic_contract :
    Act.run ("sudo mv temp_nginx.conf " ++ nginx_conf "prod_") ∈
      setup_env_actions "production"
        (EnvConfig.mk "prod_" 8069 "production.example.com" "4G")
        prodAbsentState ∧
    (setup_env_actions "production"
        (EnvConfig.mk "prod_" 8069 "production.example.com" "4G")
        prodAbsentState).filter
      (fun a => setsOwnershipOrMode a && endsWithPath a (nginx_conf "prod_"))
      = [] ∧
    dirOf "temp_nginx.conf" = "" ∧
    dirOf (nginx_conf "prod_") = "/etc/nginx/sites-available" := by decide
